import Mathlib

/-!
Verification of the data-join and aggregation pipeline of `app3.py`
(Rwanda malaria dashboard).

The embedding models:
  * `clean_name` — the name normalizer (`str(name).strip().split(' ')[0].lower()`),
    written over the character list of the string, with Python's whitespace set;
  * `merge_inner` — the inner `pd.merge` of the administrative layer with the
    case-report table on the cleaned name columns, plus the year/month derivation;
  * `update_dashboard` — the per-request filter/aggregation callback: district and
    year-range filter, per-facility sum/mean/max aggregation rounded to 2 decimals,
    per-facility month-over-month growth for map markers and bar-chart annotations,
    the district monthly series, and the three summary statistics.  The Python
    `try/except` is modelled by an `Except`-valued body (`update_dashboard_body`);
    the one modelled exception source is taking the centroid of a missing geometry.

Real numbers of the source (pandas floats) are modelled as `ℚ`; division by zero,
which for pandas floats yields `inf`/`NaN`, is the total `ℚ` division (`x / 0 = 0`).
Missing values (`NaN` cells) are modelled as `Option` fields; pandas aggregations
skip them, which the embedding renders with `List.filterMap`.
-/

/-- Python's whitespace test for `str.strip`: space, tab, newline, carriage
return, vertical tab and form feed. -/
def pyIsSpace (c : Char) : Bool :=
  c = ' ' || c = '\t' || c = '\n' || c = '\r' || c = '\x0b' || c = '\x0c'

/-- Python `str.strip()` over the character list: drop leading and trailing
whitespace. -/
def pyStripL (l : List Char) : List Char :=
  ((l.dropWhile pyIsSpace).reverse.dropWhile pyIsSpace).reverse

/-- Python `s.split(' ')` over the character list: split at every single space
character, keeping empty chunks (so `"a  b"` gives `["a", "", "b"]` and `""`
gives `[""]`). -/
def splitOnSpaceL : List Char → List (List Char)
  | [] => [[]]
  | c :: cs =>
    if c = ' ' then [] :: splitOnSpaceL cs
    else (c :: (splitOnSpaceL cs).headD []) :: (splitOnSpaceL cs).tail

/-- The name normalizer `clean_name` of `app3.py`: `""` on a missing value, and
otherwise `str(name).strip().split(' ')[0].lower()`.  `split(' ')[0]` is the
prefix of the stripped string up to the first space character. -/
def clean_name : Option String → String
  | none => ""
  | some s => String.mk (((pyStripL s.data).takeWhile (fun c => c != ' ')).map Char.toLower)

/-- Modelled from the spec: the normalizer as the spec words it, splitting the
stripped input on WHITESPACE (not just the space character) and lowercasing the
first token.  Used only to compare the spec's wording with `clean_name`. -/
def normalize_whitespace_spec : Option String → String
  | none => ""
  | some s => String.mk (((pyStripL s.data).takeWhile (fun c => !pyIsSpace c)).map Char.toLower)

/-- Amended-claim normalizer, built from the amended wording: strip, split on the
space character, take the first chunk, lowercase it. -/
def normalize_amended : Option String → String
  | none => ""
  | some s => String.mk (((splitOnSpaceL (pyStripL s.data)).headD []).map Char.toLower)

theorem splitOnSpaceL_headD (l : List Char) :
    (splitOnSpaceL l).headD [] = l.takeWhile (fun c => c != ' ') := by
  induction l with
  | nil => rfl
  | cons c cs ih =>
    by_cases hc : c = ' '
    · subst hc
      simp [splitOnSpaceL, List.takeWhile]
    · have hb : (c != ' ') = true := by simpa using hc
      simp only [splitOnSpaceL, if_neg hc, List.headD_cons, List.takeWhile, hb, ih]

/-- CORRECTED C2 counterexample: the code splits on the space character only, not
on all whitespace.  On the input `"a<TAB>b"` it returns the whole lowercased
string, while the spec's split-on-whitespace algorithm returns `"a"`. -/
theorem clean_name_tab_counterexample :
    clean_name (some "a\tb") = "a\tb" ∧
    normalize_whitespace_spec (some "a\tb") = "a" ∧
    clean_name (some "a\tb") ≠ normalize_whitespace_spec (some "a\tb") := by
  refine ⟨by decide, by decide, by decide⟩

/-- C2, amended: the normalizer returns `""` on a missing input and otherwise
strips the input, splits it on the SPACE character, takes the first chunk and
lowercases it; the spec's three examples hold. -/
theorem clean_name_amended :
    (∀ x : Option String, clean_name x = normalize_amended x) ∧
    clean_name none = "" ∧
    clean_name (some "  Kigali Central ") = "kigali" ∧
    clean_name (some "Single") = "single" := by
  refine ⟨?_, by decide, by decide, by decide⟩
  intro x
  cases x with
  | none => rfl
  | some s =>
    simp only [clean_name, normalize_amended, splitOnSpaceL_headD]

/-- Geometry of an administrative unit, abstracted to the only attribute the
dashboard reads from it: the centroid coordinates. -/
structure Geom where
  cy : ℚ
  cx : ℚ
deriving DecidableEq

/-- Parsed report date; only the fields the pipeline derives (`dt.year`,
`dt.month`) are kept. -/
structure PDate where
  year : ℤ
  month : ℤ
deriving DecidableEq

/-- Row of the administrative boundary layer after the column selection
`df_malaria[['ADM2_EN', 'ADM3_EN', 'geometry']]`.  Cell values that can be
missing in a shapefile (`ADM3_EN`, `geometry`) are `Option`-valued. -/
structure AdminRow where
  ADM2_EN : String
  ADM3_EN : Option String
  geometry : Option Geom
deriving DecidableEq

/-- Row of `malaria_cases.csv`: facility name, report date, OPD case count.
The name and the count can be missing cells. -/
structure CaseRow where
  facility_name : Option String
  date : PDate
  Malaria_cases_OPD : Option ℚ
deriving DecidableEq

/-- Row of the joined table `merged_df`: the administrative columns (renamed to
`District`/`Sector`), the cleaned join key, the case-report columns, and the
derived `Year`/`Month`. -/
structure MergedRow where
  District : String
  Sector : Option String
  geometry : Option Geom
  Cleaned_Facility : String
  facility_name : Option String
  Year : ℤ
  Month : ℤ
  Malaria_cases_OPD : Option ℚ
deriving DecidableEq

/-- The load-time join of `load_data`: `pd.merge(df_renamed, df2,
left_on='Cleaned_ADM3_EN', right_on='Cleaned_Facility', how='inner')`, followed
by the `Year`/`Month` derivation.  An inner pandas merge emits one row for each
pair of input rows whose key cells are equal — including equal empty keys. -/
def merge_inner (admin : List AdminRow) (cs : List CaseRow) : List MergedRow :=
  admin.flatMap fun a =>
    (cs.filter fun c => clean_name c.facility_name == clean_name a.ADM3_EN).map fun c =>
      { District := a.ADM2_EN
        Sector := a.ADM3_EN
        geometry := a.geometry
        Cleaned_Facility := clean_name c.facility_name
        facility_name := c.facility_name
        Year := c.date.year
        Month := c.date.month
        Malaria_cases_OPD := c.Malaria_cases_OPD }

/-- Membership in the joined table, unfolded once and for all: a joined row is
built from an admin row and a case row whose cleaned keys agree. -/
theorem mem_merge_inner {admin : List AdminRow} {cs : List CaseRow} {r : MergedRow} :
    r ∈ merge_inner admin cs ↔
      ∃ a ∈ admin, ∃ c ∈ cs, clean_name c.facility_name = clean_name a.ADM3_EN ∧
        r = { District := a.ADM2_EN
              Sector := a.ADM3_EN
              geometry := a.geometry
              Cleaned_Facility := clean_name c.facility_name
              facility_name := c.facility_name
              Year := c.date.year
              Month := c.date.month
              Malaria_cases_OPD := c.Malaria_cases_OPD } := by
  simp only [merge_inner, List.mem_flatMap, List.mem_map, List.mem_filter, beq_iff_eq]
  constructor
  · rintro ⟨a, ha, c, ⟨hc, hk⟩, hr⟩
    exact ⟨a, ha, c, hc, hk, hr.symm⟩
  · rintro ⟨a, ha, c, hc, hk, hr⟩
    exact ⟨a, ha, c, ⟨hc, hk⟩, hr.symm⟩

/-- Admin row with a matching sector name but a missing geometry, as a shapefile
can contain. -/
def adminNullGeom : AdminRow := { ADM2_EN := "East", ADM3_EN := some "Alpha", geometry := none }

/-- Case row for the facility "Alpha". -/
def caseAlpha10 : CaseRow :=
  { facility_name := some "Alpha", date := { year := 2020, month := 1 }, Malaria_cases_OPD := some 10 }

/-- CORRECTED C3 counterexample: the inner join matches on cleaned names only and
does not filter missing cells, so an admin row with a null geometry whose name
matches a case row yields a joined row with a null geometry. -/
theorem merge_inner_null_geometry_counterexample :
    (merge_inner [adminNullGeom] [caseAlpha10]).map (fun r => r.geometry) = [none] := by
  decide

/-- C3, amended: a joined row's normalized key always has a counterpart on both
sides (no unmatched row ever appears), and provided every admin row has a
non-null geometry and every case row a non-null case count, every joined row has
a non-null geometry and a non-null case count.  Without that hypothesis on the
inputs the join passes missing cells through. -/
theorem merge_inner_inner_join_invariant (admin : List AdminRow) (cs : List CaseRow) :
    (∀ r ∈ merge_inner admin cs,
      (∃ a ∈ admin, clean_name a.ADM3_EN = r.Cleaned_Facility) ∧
      (∃ c ∈ cs, clean_name c.facility_name = r.Cleaned_Facility)) ∧
    ((∀ a ∈ admin, a.geometry ≠ none) → (∀ c ∈ cs, c.Malaria_cases_OPD ≠ none) →
      ∀ r ∈ merge_inner admin cs, r.geometry ≠ none ∧ r.Malaria_cases_OPD ≠ none) := by
  constructor
  · intro r hr
    rcases mem_merge_inner.mp hr with ⟨a, ha, c, hcm, hk, rfl⟩
    exact ⟨⟨a, ha, hk.symm⟩, ⟨c, hcm, rfl⟩⟩
  · intro hg hc r hr
    rcases mem_merge_inner.mp hr with ⟨a, ha, c, hcm, hk, rfl⟩
    exact ⟨hg a ha, hc c hcm⟩

/-- Witness for the amended C3 theorem at a concrete one-row join, with the
non-null-input hypotheses of the second conjunct discharged. -/
theorem merge_inner_inner_join_invariant_witness :
    (∀ r ∈ merge_inner [{ ADM2_EN := "East", ADM3_EN := some "Alpha", geometry := some ⟨-2, 30⟩ }] [caseAlpha10],
      (∃ a ∈ [({ ADM2_EN := "East", ADM3_EN := some "Alpha", geometry := some ⟨-2, 30⟩ } : AdminRow)],
        clean_name a.ADM3_EN = r.Cleaned_Facility) ∧
      (∃ c ∈ [caseAlpha10], clean_name c.facility_name = r.Cleaned_Facility)) ∧
    (∀ r ∈ merge_inner [{ ADM2_EN := "East", ADM3_EN := some "Alpha", geometry := some ⟨-2, 30⟩ }] [caseAlpha10],
      r.geometry ≠ none ∧ r.Malaria_cases_OPD ≠ none) :=
  ⟨(merge_inner_inner_join_invariant _ _).1,
   (merge_inner_inner_join_invariant _ _).2 (by decide) (by decide)⟩

/-- Admin row whose sector name is missing: its cleaned key is the empty
string. -/
def adminNoName : AdminRow := { ADM2_EN := "East", ADM3_EN := none, geometry := some ⟨-2, 30⟩ }

/-- Case row whose facility name is whitespace only: its cleaned key is the
empty string. -/
def caseBlankName : CaseRow :=
  { facility_name := some "   ", date := { year := 2020, month := 1 }, Malaria_cases_OPD := some 5 }

/-- CORRECTED C4 counterexample: a pandas inner merge has no non-emptiness
requirement on keys — two rows that both normalize to the empty string DO match,
so the joined table can contain a row with an empty normalized key. -/
theorem merge_inner_empty_key_counterexample :
    (merge_inner [adminNoName] [caseBlankName]).map (fun r => r.Cleaned_Facility) = [""] := by
  decide

/-- C4, amended: joined rows with an empty normalized key appear exactly when
some admin row and some case row both normalize to the empty key — empty keys
join by ordinary equality like any other value. -/
theorem merge_inner_empty_key_iff (admin : List AdminRow) (cs : List CaseRow) :
    (∃ r ∈ merge_inner admin cs, r.Cleaned_Facility = "") ↔
      ((∃ a ∈ admin, clean_name a.ADM3_EN = "") ∧ (∃ c ∈ cs, clean_name c.facility_name = "")) := by
  constructor
  · rintro ⟨r, hr, hkey⟩
    rcases mem_merge_inner.mp hr with ⟨a, ha, c, hcm, hk, rfl⟩
    have hc0 : clean_name c.facility_name = "" := hkey
    exact ⟨⟨a, ha, hk ▸ hc0⟩, ⟨c, hcm, hc0⟩⟩
  · rintro ⟨⟨a, ha, hka⟩, ⟨c, hcm, hkc⟩⟩
    refine ⟨_, mem_merge_inner.mpr ⟨a, ha, c, hcm, by rw [hka, hkc], rfl⟩, hkc⟩

/-- Rounding to 2 decimal places, as `DataFrame.round(2)` applies to every
numeric column of the aggregate table. -/
def round2 (q : ℚ) : ℚ := (⌊q * 100 + 1/2⌋ : ℚ) / 100

theorem round2_intCast (n : ℤ) : round2 (n : ℚ) = n := by
  unfold round2
  have h1 : ((n : ℚ) * 100 + 1/2) = ((n * 100 : ℤ) : ℚ) + 1/2 := by push_cast; ring
  have h2 : ⌊(1/2 : ℚ)⌋ = 0 := by
    rw [Int.floor_eq_zero_iff]
    constructor <;> norm_num
  rw [h1, Int.floor_int_add, h2]
  push_cast
  ring

/-- Case values of a list of joined rows with the missing cells skipped, as
every pandas aggregation over `Malaria_cases_OPD` does. -/
def caseVals (l : List MergedRow) : List ℚ :=
  l.filterMap fun r => r.Malaria_cases_OPD

/-- Maximum of a value list (`agg('max')`); `0` stands in for the `NaN` pandas
produces on an empty list. -/
def listMax : List ℚ → ℚ
  | [] => 0
  | x :: xs => xs.foldl max x

/-- Mean of a value list (`agg('mean')` / `Series.mean`); on the empty list the
total `ℚ` division gives `0` where pandas gives `NaN`. -/
def listMean (l : List ℚ) : ℚ := l.sum / l.length

/-- Lexicographic order on character lists — Python's string comparison, which
pandas `groupby(sort=True)` applies to string keys. -/
def listLtB : List Char → List Char → Bool
  | [], [] => false
  | [], _ :: _ => true
  | _ :: _, [] => false
  | x :: xs, y :: ys => if x < y then true else if y < x then false else listLtB xs ys

def strLeB (a b : String) : Bool := !(listLtB b.data a.data)

def insertStr (x : String) : List String → List String
  | [] => [x]
  | y :: ys => if strLeB x y then x :: y :: ys else y :: insertStr x ys

/-- Ascending sort of string keys, as `groupby('facility_name')` sorts its
groups. -/
def sortStr : List String → List String
  | [] => []
  | x :: xs => insertStr x (sortStr xs)

/-- Ordering of `(Year, Month)` group keys, as `groupby(['Year', 'Month'])`
sorts them. -/
def ymLeB (a b : ℤ × ℤ) : Bool :=
  decide (a.1 < b.1) || (a.1 == b.1 && decide (a.2 ≤ b.2))

def insertYM (x : ℤ × ℤ) : List (ℤ × ℤ) → List (ℤ × ℤ)
  | [] => [x]
  | y :: ys => if ymLeB x y then x :: y :: ys else y :: insertYM x ys

def sortYM : List (ℤ × ℤ) → List (ℤ × ℤ)
  | [] => []
  | x :: xs => insertYM x (sortYM xs)

/-- Distinct `(Year, Month)` keys of a row list, in ascending order — the index
of `groupby(['Year', 'Month'])`. -/
def ymKeys (l : List MergedRow) : List (ℤ × ℤ) :=
  sortYM ((l.map fun r => (r.Year, r.Month)).dedup)

/-- Rows of one `(Year, Month)` group. -/
def ymGroup (l : List MergedRow) (k : ℤ × ℤ) : List MergedRow :=
  l.filter fun r => r.Year == k.1 && r.Month == k.2

/-- Per-month summed case counts in ascending `(Year, Month)` order:
`groupby(['Year', 'Month'])['Malaria_cases_OPD'].sum()`. -/
def monthlySums (l : List MergedRow) : List ℚ :=
  (ymKeys l).map fun k => (caseVals (ymGroup l k)).sum

/-- Distinct non-missing facility names in ascending order — the group keys of
`groupby('facility_name')`, which drops missing keys and sorts. -/
def facilityKeys (l : List MergedRow) : List String :=
  sortStr ((l.filterMap fun r => r.facility_name).dedup)

/-- Rows of one facility: `district_data[district_data['facility_name'] == f]`.
A missing facility name matches nothing, as a pandas `==` on `NaN` is false. -/
def facilityFiltered (l : List MergedRow) (f : String) : List MergedRow :=
  l.filter fun r => r.facility_name == some f

/-- Row of the aggregate table `agg_data`: facility name with the summed, mean
and maximum case count, rounded to 2 decimal places. -/
structure AggRow where
  facility_name : String
  total_cases : ℚ
  average_cases : ℚ
  maximum_cases : ℚ
deriving DecidableEq

/-- One row of `district_data.groupby('facility_name')['Malaria_cases_OPD']
.agg([sum, mean, max]).reset_index().round(2)`. -/
def aggOf (dd : List MergedRow) (f : String) : AggRow :=
  { facility_name := f
    total_cases := round2 (caseVals (facilityFiltered dd f)).sum
    average_cases := round2 (listMean (caseVals (facilityFiltered dd f)))
    maximum_cases := round2 (listMax (caseVals (facilityFiltered dd f))) }

/-- The aggregate table `agg_data` of the callback. -/
def agg_data (dd : List MergedRow) : List AggRow :=
  (facilityKeys dd).map (aggOf dd)

/-- Month-over-month growth as the marker loop computes it (lines 359–366 of
`app3.py`): `0` with fewer than two monthly buckets, else the percent change of
the last monthly sum over the second-to-last, guarded to `0` on a zero
second-to-last value. -/
def mom_growth_marker (fm : List ℚ) : ℚ :=
  if 1 < fm.length then
    if fm.dropLast.getLastD 0 ≠ 0 then
      (fm.getLastD 0 - fm.dropLast.getLastD 0) / fm.dropLast.getLastD 0 * 100
    else 0
  else 0

/-- Month-over-month growth as the bar-chart annotation loop computes it
(lines 442–451 of `app3.py`); the loop only evaluates it when at least two
monthly buckets exist. -/
def mom_growth_chart (fm : List ℚ) : ℚ :=
  if fm.dropLast.getLastD 0 ≠ 0 then
    (fm.getLastD 0 - fm.dropLast.getLastD 0) / fm.dropLast.getLastD 0 * 100
  else 0

/-- Map marker: popup position (centroid of the facility's first filtered row)
and the growth figure shown in the popup card. -/
structure Marker where
  facility_name : String
  lat : ℚ
  lon : ℚ
  mom_growth : ℚ
deriving DecidableEq

/-- The marker loop: one popup per aggregate row with a matching filtered row.
Taking `.centroid` of a missing geometry raises in Python; the raise is modelled
as the `Except` error, which aborts the whole computation. -/
def mkMarkers (dd : List MergedRow) : List AggRow → Except String (List Marker)
  | [] => .ok []
  | row :: rest =>
    match facilityFiltered dd row.facility_name with
    | [] => mkMarkers dd rest
    | f :: _ =>
      match f.geometry with
      | none => .error "AttributeError: NoneType object has no attribute centroid"
      | some g =>
        match mkMarkers dd rest with
        | .error e => .error e
        | .ok ms =>
          .ok ({ facility_name := row.facility_name
                 lat := g.cy
                 lon := g.cx
                 mom_growth := mom_growth_marker (monthlySums (facilityFiltered dd row.facility_name)) } :: ms)

/-- The annotation loop of the bar chart: an arrow (with its growth figure) is
added only for facilities with more than one monthly bucket. -/
def mkAnnotations (dd : List MergedRow) (rows : List AggRow) : List (String × ℚ) :=
  rows.filterMap fun row =>
    if 1 < (monthlySums (facilityFiltered dd row.facility_name)).length then
      some (row.facility_name, mom_growth_chart (monthlySums (facilityFiltered dd row.facility_name)))
    else none

/-- The district filter of the callback: `District == selected_district` and
`year_range[0] <= Year <= year_range[1]`. -/
def district_data (t : List MergedRow) (d : String) (y0 y1 : ℤ) : List MergedRow :=
  t.filter fun r => r.District == d && decide (y0 ≤ r.Year) && decide (r.Year ≤ y1)

/-- Period growth of the summary cards: percent change of the last monthly sum
over the first when at least two monthly points exist, else `0`; the division
has no zero guard (a zero first value divides by zero — `inf`/`NaN` for pandas
floats, `0` under total `ℚ` division). -/
def growth_rate (ms : List ℚ) : ℚ :=
  if 2 ≤ ms.length then (ms.getLastD 0 - ms.headD 0) / ms.headD 0 * 100 else 0

/-- The trend-chart series `monthly_data`: `(Year, Month)` keys with their
summed case counts. -/
def monthly_kv (dd : List MergedRow) : List ((ℤ × ℤ) × ℚ) :=
  (ymKeys dd).map fun k => (k, (caseVals (ymGroup dd k)).sum)

/-- Everything the callback returns: aggregate table records, the geometry of
each filtered row, map markers, bar-chart growth annotations, the monthly trend
series, and the three summary scalars (total, monthly average, period growth). -/
structure DashOutput where
  table_data : List AggRow
  geo_features : List (Option Geom)
  markers : List Marker
  bar_annotations : List (String × ℚ)
  monthly_series : List ((ℤ × ℤ) × ℚ)
  summary_stats : List ℚ
deriving DecidableEq

/-- Body of the `try:` block of `update_dashboard`: the full filter/aggregation
computation, returning `.error` where the Python body raises. -/
def update_dashboard_body (t : List MergedRow) (d : String) (y0 y1 : ℤ) :
    Except String DashOutput :=
  match mkMarkers (district_data t d y0 y1) (agg_data (district_data t d y0 y1)) with
  | .error e => .error e
  | .ok ms =>
    .ok { table_data := agg_data (district_data t d y0 y1)
          geo_features := (district_data t d y0 y1).map fun r => r.geometry
          markers := ms
          bar_annotations := mkAnnotations (district_data t d y0 y1) (agg_data (district_data t d y0 y1))
          monthly_series := monthly_kv (district_data t d y0 y1)
          summary_stats := [(caseVals (district_data t d y0 y1)).sum,
                            listMean (monthlySums (district_data t d y0 y1)),
                            growth_rate (monthlySums (district_data t d y0 y1))] }

/-- The `except:` branch of the callback: empty table, empty feature collection,
no markers, empty charts, empty summary. -/
def empty_dash : DashOutput :=
  { table_data := []
    geo_features := []
    markers := []
    bar_annotations := []
    monthly_series := []
    summary_stats := [] }

/-- The callback `update_dashboard`: the body's result, degraded to the empty
output when the body raises. -/
def update_dashboard (t : List MergedRow) (d : String) (y0 y1 : ℤ) : DashOutput :=
  match update_dashboard_body t d y0 y1 with
  | .ok o => o
  | .error _ => empty_dash

/-- Membership in the filtered set, in propositional form. -/
theorem mem_district_data {t : List MergedRow} {d : String} {y0 y1 : ℤ} {r : MergedRow} :
    r ∈ district_data t d y0 y1 ↔ r ∈ t ∧ r.District = d ∧ y0 ≤ r.Year ∧ r.Year ≤ y1 := by
  simp only [district_data, List.mem_filter, Bool.and_eq_true, decide_eq_true_eq, beq_iff_eq]
  tauto

/-- Inverting the year range empties the filter. -/
theorem district_data_eq_nil_of_inverted (t : List MergedRow) (d : String) (y0 y1 : ℤ)
    (h : y1 < y0) : district_data t d y0 y1 = [] := by
  refine List.filter_eq_nil_iff.mpr fun r _ => ?_
  simp only [Bool.and_eq_true, decide_eq_true_eq, beq_iff_eq]
  rintro ⟨⟨-, h0⟩, h1⟩
  omega

/-- An all-different district also empties the filter. -/
theorem district_data_eq_nil_of_unknown (t : List MergedRow) (d : String) (y0 y1 : ℤ)
    (h : ∀ r ∈ t, r.District ≠ d) : district_data t d y0 y1 = [] := by
  refine List.filter_eq_nil_iff.mpr fun r hr => ?_
  simp only [Bool.and_eq_true, decide_eq_true_eq, beq_iff_eq]
  rintro ⟨⟨hd, -⟩, -⟩
  exact h r hr hd

/-- Shape of the callback's result: either the body raised and the output is the
empty sentinel, or every component is the corresponding computation over the
filtered set. -/
theorem update_dashboard_shape (t : List MergedRow) (d : String) (y0 y1 : ℤ) :
    update_dashboard t d y0 y1 = empty_dash ∨
      ∃ ms, mkMarkers (district_data t d y0 y1) (agg_data (district_data t d y0 y1)) = .ok ms ∧
        update_dashboard t d y0 y1 =
          { table_data := agg_data (district_data t d y0 y1)
            geo_features := (district_data t d y0 y1).map fun r => r.geometry
            markers := ms
            bar_annotations := mkAnnotations (district_data t d y0 y1) (agg_data (district_data t d y0 y1))
            monthly_series := monthly_kv (district_data t d y0 y1)
            summary_stats := [(caseVals (district_data t d y0 y1)).sum,
                              listMean (monthlySums (district_data t d y0 y1)),
                              growth_rate (monthlySums (district_data t d y0 y1))] } := by
  unfold update_dashboard update_dashboard_body
  cases hm : mkMarkers (district_data t d y0 y1) (agg_data (district_data t d y0 y1)) with
  | error e => exact Or.inl rfl
  | ok ms => exact Or.inr ⟨ms, rfl, rfl⟩

/-- A row of the aggregate table is the aggregation of its own facility's
filtered rows. -/
theorem mem_table_data {t : List MergedRow} {d : String} {y0 y1 : ℤ} {row : AggRow}
    (h : row ∈ (update_dashboard t d y0 y1).table_data) :
    row = aggOf (district_data t d y0 y1) row.facility_name := by
  rcases update_dashboard_shape t d y0 y1 with he | ⟨ms, _, he⟩
  · rw [he] at h
    exact absurd h (List.not_mem_nil row)
  · rw [he] at h
    simp only [agg_data, List.mem_map] at h
    rcases h with ⟨f, _, rfl⟩
    rfl

/-- CONFIRMED C5: the callback filters on district equality and the inclusive
year range; a single-year range keeps exactly that year's records of the
district, and an inverted range yields the empty filtered set and an empty
aggregate table, with no validation anywhere. -/
theorem district_filter_range :
    (∀ (t : List MergedRow) (d : String) (y0 y1 : ℤ) (r : MergedRow),
        r ∈ district_data t d y0 y1 ↔ r ∈ t ∧ r.District = d ∧ y0 ≤ r.Year ∧ r.Year ≤ y1) ∧
    (∀ (t : List MergedRow) (d : String) (m : ℤ) (r : MergedRow),
        r ∈ district_data t d m m ↔ r ∈ t ∧ r.District = d ∧ r.Year = m) ∧
    (∀ (t : List MergedRow) (d : String) (y0 y1 : ℤ), y1 < y0 →
        district_data t d y0 y1 = [] ∧ (update_dashboard t d y0 y1).table_data = []) := by
  refine ⟨fun t d y0 y1 r => mem_district_data, fun t d m r => ?_, fun t d y0 y1 h => ?_⟩
  · rw [mem_district_data]
    constructor
    · rintro ⟨h1, h2, h3, h4⟩
      exact ⟨h1, h2, le_antisymm h4 h3⟩
    · rintro ⟨h1, h2, h3⟩
      exact ⟨h1, h2, ge_of_eq h3, le_of_eq h3⟩
  · have hnil := district_data_eq_nil_of_inverted t d y0 y1 h
    refine ⟨hnil, ?_⟩
    unfold update_dashboard update_dashboard_body
    rw [hnil]
    rfl

/-- Witness for C5 at a concrete inverted range. -/
theorem district_filter_range_witness :
    ((2020 : ℤ) < 2021) ∧
    district_data [] "East" 2021 2020 = [] ∧
    (update_dashboard [] "East" 2021 2020).table_data = [] :=
  ⟨by norm_num, district_filter_range.2.2 [] "East" 2021 2020 (by norm_num)⟩

/-- CONFIRMED C8: whenever the body of the callback raises, the `except:` branch
returns the fully empty output — empty table, empty feature collection, no
markers, empty charts, empty summary — instead of propagating. -/
theorem callback_error_degrades_to_empty (t : List MergedRow) (d : String) (y0 y1 : ℤ)
    (e : String) (h : update_dashboard_body t d y0 y1 = .error e) :
    update_dashboard t d y0 y1 =
      { table_data := [], geo_features := [], markers := [], bar_annotations := [],
        monthly_series := [], summary_stats := [] } := by
  unfold update_dashboard
  rw [h]
  rfl

/-- Joined row whose geometry is missing: the marker loop's `.centroid` raises
on it. -/
def badRow : MergedRow :=
  ⟨"D", some "A", none, "a", some "A", 2020, 1, some 7⟩

/-- One-row table on which the callback body raises. -/
def badTable : List MergedRow := [badRow]

/-- Evaluation helper: on `badTable` the body takes the error path of the marker
loop. -/
theorem update_dashboard_body_badTable :
    update_dashboard_body badTable "D" 2020 2020 =
      .error "AttributeError: NoneType object has no attribute centroid" := by
  have hdd : district_data badTable "D" 2020 2020 = badTable := by decide
  have hkeys : facilityKeys badTable = ["A"] := by decide
  have hagg : agg_data badTable = [aggOf badTable "A"] := by
    rw [agg_data, hkeys]
    rfl
  have hff : facilityFiltered badTable "A" = [badRow] := by decide
  have hname : (aggOf badTable "A").facility_name = "A" := rfl
  have hmk : mkMarkers badTable [aggOf badTable "A"] =
      .error "AttributeError: NoneType object has no attribute centroid" := by
    simp only [mkMarkers, hname, hff, badRow]
  unfold update_dashboard_body
  rw [hdd, hagg, hmk]

/-- Witness for C8: on the one-row table with a missing geometry the body raises
and the callback returns the empty output. -/
theorem callback_error_degrades_to_empty_witness :
    update_dashboard_body badTable "D" 2020 2020 =
      .error "AttributeError: NoneType object has no attribute centroid" ∧
    update_dashboard badTable "D" 2020 2020 =
      { table_data := [], geo_features := [], markers := [], bar_annotations := [],
        monthly_series := [], summary_stats := [] } :=
  ⟨update_dashboard_body_badTable,
   callback_error_degrades_to_empty badTable "D" 2020 2020 _ update_dashboard_body_badTable⟩

/-- CONFIRMED C9: a district absent from the table yields, without raising, the
empty aggregate table, empty geometry collection, no markers, empty charts, and
the zero summary (total `0`, monthly average `0` — pandas renders the mean of an
empty series as `NaN`, modelled `0` — and growth `0`). -/
theorem unknown_district_empty (t : List MergedRow) (d : String) (y0 y1 : ℤ)
    (h : ∀ r ∈ t, r.District ≠ d) :
    update_dashboard_body t d y0 y1 =
      .ok { table_data := [], geo_features := [], markers := [], bar_annotations := [],
            monthly_series := [], summary_stats := [0, 0, 0] } ∧
    update_dashboard t d y0 y1 =
      { table_data := [], geo_features := [], markers := [], bar_annotations := [],
        monthly_series := [], summary_stats := [0, 0, 0] } := by
  have hnil := district_data_eq_nil_of_unknown t d y0 y1 h
  have hmean : listMean (monthlySums ([] : List MergedRow)) = 0 := by
    norm_num [listMean, monthlySums, ymKeys, sortYM]
  have hbody : update_dashboard_body t d y0 y1 =
      .ok { table_data := [], geo_features := [], markers := [], bar_annotations := [],
            monthly_series := [], summary_stats := [0, 0, 0] } := by
    unfold update_dashboard_body
    rw [hnil]
    rw [show mkMarkers ([] : List MergedRow) (agg_data []) = .ok [] from rfl]
    rw [show listMean (monthlySums ([] : List MergedRow)) = 0 from hmean]
    rfl
  refine ⟨hbody, ?_⟩
  unfold update_dashboard
  rw [hbody]

/-- Witness for C9 at a concrete table and unknown district. -/
theorem unknown_district_empty_witness :
    update_dashboard badTable "Nonexistent" 2020 2020 =
      { table_data := [], geo_features := [], markers := [], bar_annotations := [],
        monthly_series := [], summary_stats := [0, 0, 0] } :=
  (unknown_district_empty badTable "Nonexistent" 2020 2020 (by decide)).2

/-- Every marker of the marker loop carries the month-over-month growth of its
own facility's monthly sums. -/
theorem mem_mkMarkers {dd : List MergedRow} {rows : List AggRow} {ms : List Marker}
    (h : mkMarkers dd rows = .ok ms) :
    ∀ m ∈ ms, m.mom_growth = mom_growth_marker (monthlySums (facilityFiltered dd m.facility_name)) := by
  induction rows generalizing ms with
  | nil =>
    cases h
    intro m hm
    exact absurd hm (List.not_mem_nil m)
  | cons row rest ih =>
    rw [mkMarkers] at h
    split at h
    · exact ih h
    next f fs hf =>
      split at h
      next hg => exact absurd h (by simp)
      next g hg =>
        split at h
        next e hrest => exact absurd h (by simp)
        next ms' hrest =>
          rcases Except.ok.inj h with rfl
          intro m hm
          rcases List.mem_cons.mp hm with rfl | hm'
          · simp only [hf]
          · exact ih hrest m hm'

/-- Membership in the annotation list of the bar chart: an annotation exists
exactly for the facilities with more than one monthly bucket, and carries the
chart-side growth value. -/
theorem mem_mkAnnotations {dd : List MergedRow} {rows : List AggRow} {n : String} {g : ℚ}
    (h : (n, g) ∈ mkAnnotations dd rows) :
    (∃ row ∈ rows, row.facility_name = n) ∧
    1 < (monthlySums (facilityFiltered dd n)).length ∧
    g = mom_growth_chart (monthlySums (facilityFiltered dd n)) := by
  rcases List.mem_filterMap.mp h with ⟨row, hrow, hsome⟩
  by_cases hlen : 1 < (monthlySums (facilityFiltered dd row.facility_name)).length
  · rw [if_pos hlen] at hsome
    have h1 : row.facility_name = n := congrArg Prod.fst (Option.some.inj hsome)
    have h2 : mom_growth_chart (monthlySums (facilityFiltered dd row.facility_name)) = g :=
      congrArg Prod.snd (Option.some.inj hsome)
    subst h1
    exact ⟨⟨row, hrow, rfl⟩, hlen, h2.symm⟩
  · rw [if_neg hlen] at hsome
    cases hsome

/-- CONFIRMED C6: the growth shown on a facility's map marker is `0` with at
most one monthly bucket, `0` when the second-to-last monthly sum is exactly zero
(explicit guard, a total function with no error or infinity), and otherwise the
percent change of the last monthly sum over the second-to-last. -/
theorem marker_growth_guard (t : List MergedRow) (d : String) (y0 y1 : ℤ) (m : Marker)
    (hm : m ∈ (update_dashboard t d y0 y1).markers) :
    ((monthlySums (facilityFiltered (district_data t d y0 y1) m.facility_name)).length ≤ 1 →
      m.mom_growth = 0) ∧
    (1 < (monthlySums (facilityFiltered (district_data t d y0 y1) m.facility_name)).length →
      (monthlySums (facilityFiltered (district_data t d y0 y1) m.facility_name)).dropLast.getLastD 0 = 0 →
      m.mom_growth = 0) ∧
    (1 < (monthlySums (facilityFiltered (district_data t d y0 y1) m.facility_name)).length →
      (monthlySums (facilityFiltered (district_data t d y0 y1) m.facility_name)).dropLast.getLastD 0 ≠ 0 →
      m.mom_growth =
        ((monthlySums (facilityFiltered (district_data t d y0 y1) m.facility_name)).getLastD 0 -
         (monthlySums (facilityFiltered (district_data t d y0 y1) m.facility_name)).dropLast.getLastD 0) /
        (monthlySums (facilityFiltered (district_data t d y0 y1) m.facility_name)).dropLast.getLastD 0 * 100) := by
  have hval : m.mom_growth =
      mom_growth_marker (monthlySums (facilityFiltered (district_data t d y0 y1) m.facility_name)) := by
    rcases update_dashboard_shape t d y0 y1 with he | ⟨ms, hmk, he⟩
    · rw [he] at hm
      exact absurd hm (List.not_mem_nil m)
    · rw [he] at hm
      exact mem_mkMarkers hmk m hm
  rw [hval]
  unfold mom_growth_marker
  refine ⟨fun hle => ?_, fun hlt hz => ?_, fun hlt hz => ?_⟩
  · rw [if_neg (by omega)]
  · rw [if_pos hlt, if_neg (by simpa using hz)]
  · rw [if_pos hlt, if_pos (by simpa using hz)]

/-- With more than one monthly bucket the two duplicated growth computations
coincide. -/
theorem mom_growth_marker_eq_chart {fm : List ℚ} (h : 1 < fm.length) :
    mom_growth_marker fm = mom_growth_chart fm := by
  unfold mom_growth_marker mom_growth_chart
  rw [if_pos h]

/-- CONFIRMED C10: whenever a facility has both a map-marker popup and a
bar-chart arrow annotation, the growth value of the popup and the growth value
of the annotation — computed by the two duplicated code blocks over the same
filtered data — are equal. -/
theorem marker_chart_growth_agree (t : List MergedRow) (d : String) (y0 y1 : ℤ)
    (n : String) (g : ℚ) (m : Marker)
    (ha : (n, g) ∈ (update_dashboard t d y0 y1).bar_annotations)
    (hm : m ∈ (update_dashboard t d y0 y1).markers)
    (hn : m.facility_name = n) :
    m.mom_growth = g := by
  rcases update_dashboard_shape t d y0 y1 with he | ⟨ms, hmk, he⟩
  · rw [he] at ha
    exact absurd ha (List.not_mem_nil _)
  · rw [he] at ha hm
    rcases mem_mkAnnotations ha with ⟨-, hlen, hg⟩
    have hval := mem_mkMarkers hmk m hm
    rw [hn] at hval
    rw [hval, hg, mom_growth_marker_eq_chart hlen]

/-- Example geometry for the end-to-end table. -/
def exGeom : Geom := ⟨-2, 30⟩

/-- January joined record of facility "Alpha" in district "East" with 10
cases. -/
def alphaJan : MergedRow :=
  ⟨"East", some "Alpha", some exGeom, "alpha", some "Alpha", 2020, 1, some 10⟩

/-- February joined record of facility "Alpha" in district "East" with 20
cases. -/
def alphaFeb : MergedRow :=
  ⟨"East", some "Alpha", some exGeom, "alpha", some "Alpha", 2020, 2, some 20⟩

/-- The end-to-end example table of the spec: facility "Alpha" in district
"East" with case counts 10 (January) and 20 (February) of one year. -/
def exTable : List MergedRow := [alphaJan, alphaFeb]

/-- Evaluation helper: the district filter keeps both example rows. -/
theorem district_data_exTable : district_data exTable "East" 2020 2020 = exTable := by
  decide

/-- Evaluation helper: the facility filter keeps both example rows. -/
theorem facilityFiltered_exTable : facilityFiltered exTable "Alpha" = exTable := by
  decide

/-- Evaluation helper: Alpha's monthly series on the example table. -/
theorem monthlySums_exTable : monthlySums exTable = [10, 20] := by
  have h : ymKeys exTable = [(2020, 1), (2020, 2)] := by decide
  have h1 : ymGroup exTable (2020, 1) = [alphaJan] := by decide
  have h2 : ymGroup exTable (2020, 2) = [alphaFeb] := by decide
  simp [monthlySums, h, h1, h2, caseVals, alphaJan, alphaFeb]

/-- Full evaluation of the callback on the example table. -/
theorem update_dashboard_body_exTable :
    update_dashboard_body exTable "East" 2020 2020 =
      .ok { table_data := [⟨"Alpha", 30, 15, 20⟩]
            geo_features := [some exGeom, some exGeom]
            markers := [⟨"Alpha", -2, 30, 100⟩]
            bar_annotations := [("Alpha", 100)]
            monthly_series := [((2020, 1), 10), ((2020, 2), 20)]
            summary_stats := [30, 15, 100] } := by
  have hdd := district_data_exTable
  have hv : caseVals (facilityFiltered exTable "Alpha") = [10, 20] := by decide
  have hff := facilityFiltered_exTable
  have hms := monthlySums_exTable
  have h30 : round2 (30 : ℚ) = 30 := by
    have := round2_intCast 30; norm_num at this; exact this
  have h15 : round2 (15 : ℚ) = 15 := by
    have := round2_intCast 15; norm_num at this; exact this
  have h20 : round2 (20 : ℚ) = 20 := by
    have := round2_intCast 20; norm_num at this; exact this
  have hagg : aggOf exTable "Alpha" = ⟨"Alpha", 30, 15, 20⟩ := by
    simp [aggOf, hv, listMean, listMax]
    norm_num [h30, h15, h20]
  have haggd : agg_data exTable = [⟨"Alpha", 30, 15, 20⟩] := by
    have hk : facilityKeys exTable = ["Alpha"] := by decide
    simp [agg_data, hk, hagg]
  have hgrow : mom_growth_marker (monthlySums exTable) = 100 := by
    rw [hms]
    norm_num [mom_growth_marker]
  have hmk : mkMarkers exTable [⟨"Alpha", 30, 15, 20⟩] = .ok [⟨"Alpha", -2, 30, 100⟩] := by
    have hh : facilityFiltered exTable "Alpha" = alphaJan :: [alphaFeb] := by decide
    simp only [mkMarkers, hh]
    have hg : alphaJan.geometry = some exGeom := by decide
    rw [hg]
    simp only [mkMarkers]
    rw [← hh, hff, hgrow]
    rfl
  have hann : mkAnnotations exTable [⟨"Alpha", 30, 15, 20⟩] = [("Alpha", 100)] := by
    simp only [mkAnnotations, List.filterMap]
    rw [hff, hms]
    norm_num [mom_growth_chart]
  have hkv : monthly_kv exTable = [((2020, 1), 10), ((2020, 2), 20)] := by
    have h : ymKeys exTable = [(2020, 1), (2020, 2)] := by decide
    have h1 : ymGroup exTable (2020, 1) = [alphaJan] := by decide
    have h2 : ymGroup exTable (2020, 2) = [alphaFeb] := by decide
    simp [monthly_kv, h, h1, h2, caseVals, alphaJan, alphaFeb]
  have hsum : (caseVals exTable).sum = 30 := by
    have h : caseVals exTable = [10, 20] := by decide
    rw [h]; norm_num
  have hmean : listMean (monthlySums exTable) = 15 := by
    rw [hms]; norm_num [listMean]
  have hgr : growth_rate (monthlySums exTable) = 100 := by
    rw [hms]; norm_num [growth_rate]
  unfold update_dashboard_body
  rw [hdd, haggd, hmk]
  simp only
  rw [hann, hkv, hsum, hmean, hgr]
  rw [show List.map (fun r => r.geometry) exTable = [some exGeom, some exGeom] from by decide]

/-- The callback output on the example table. -/
theorem update_dashboard_exTable :
    update_dashboard exTable "East" 2020 2020 =
      { table_data := [⟨"Alpha", 30, 15, 20⟩]
        geo_features := [some exGeom, some exGeom]
        markers := [⟨"Alpha", -2, 30, 100⟩]
        bar_annotations := [("Alpha", 100)]
        monthly_series := [((2020, 1), 10), ((2020, 2), 20)]
        summary_stats := [30, 15, 100] } := by
  unfold update_dashboard
  rw [update_dashboard_body_exTable]

/-- CONFIRMED C1: every aggregate row carries the rounded sum, mean and maximum
of its facility's case counts over the filtered set, and on the spec's example
table `computeView("East", [2020, 2020])` yields exactly one aggregate row
`{Alpha, 30, 15, 20}` whose marker shows a month-over-month growth of 100%. -/
theorem update_dashboard_facility_aggregation :
    (∀ (t : List MergedRow) (d : String) (y0 y1 : ℤ) (row : AggRow),
      row ∈ (update_dashboard t d y0 y1).table_data →
        row.total_cases =
          round2 (caseVals (facilityFiltered (district_data t d y0 y1) row.facility_name)).sum ∧
        row.average_cases =
          round2 (listMean (caseVals (facilityFiltered (district_data t d y0 y1) row.facility_name))) ∧
        row.maximum_cases =
          round2 (listMax (caseVals (facilityFiltered (district_data t d y0 y1) row.facility_name)))) ∧
    (update_dashboard exTable "East" 2020 2020).table_data = [⟨"Alpha", 30, 15, 20⟩] ∧
    (update_dashboard exTable "East" 2020 2020).markers = [⟨"Alpha", -2, 30, 100⟩] := by
  refine ⟨fun t d y0 y1 row h => ?_, ?_, ?_⟩
  · have := mem_table_data h
    rw [this]
    exact ⟨rfl, rfl, rfl⟩
  · rw [update_dashboard_exTable]
  · rw [update_dashboard_exTable]

/-- Witness for C1: the general per-row characterization applied to the
example's single aggregate row. -/
theorem update_dashboard_facility_aggregation_witness :
    (⟨"Alpha", 30, 15, 20⟩ : AggRow) ∈ (update_dashboard exTable "East" 2020 2020).table_data ∧
    (⟨"Alpha", 30, 15, 20⟩ : AggRow).total_cases =
      round2 (caseVals (facilityFiltered (district_data exTable "East" 2020 2020) "Alpha")).sum := by
  have hmem : (⟨"Alpha", 30, 15, 20⟩ : AggRow) ∈ (update_dashboard exTable "East" 2020 2020).table_data := by
    rw [update_dashboard_facility_aggregation.2.1]
    exact List.mem_singleton_self _
  exact ⟨hmem,
    (update_dashboard_facility_aggregation.1 exTable "East" 2020 2020 ⟨"Alpha", 30, 15, 20⟩ hmem).1⟩

/-- CONFIRMED C7: the summary block of a successful callback run is the total of
the filtered case counts, the mean of the district monthly series, and the
period growth — the percent change of the last monthly sum over the first when
at least two monthly points exist, else 0.  The division carries no zero guard
on the first monthly value. -/
theorem summary_stats_formula (t : List MergedRow) (d : String) (y0 y1 : ℤ) (o : DashOutput)
    (h : update_dashboard_body t d y0 y1 = .ok o) :
    o.summary_stats =
      [(caseVals (district_data t d y0 y1)).sum,
       (monthlySums (district_data t d y0 y1)).sum / (monthlySums (district_data t d y0 y1)).length,
       if 2 ≤ (monthlySums (district_data t d y0 y1)).length then
         ((monthlySums (district_data t d y0 y1)).getLastD 0 -
          (monthlySums (district_data t d y0 y1)).headD 0) /
           (monthlySums (district_data t d y0 y1)).headD 0 * 100
       else 0] := by
  unfold update_dashboard_body at h
  split at h
  · exact absurd h (by simp)
  · rcases Except.ok.inj h with rfl
    rfl

/-- Witness for C7 at the example table. -/
theorem summary_stats_formula_witness :
    ({ table_data := [⟨"Alpha", 30, 15, 20⟩]
       geo_features := [some exGeom, some exGeom]
       markers := [⟨"Alpha", -2, 30, 100⟩]
       bar_annotations := [("Alpha", 100)]
       monthly_series := [((2020, 1), 10), ((2020, 2), 20)]
       summary_stats := [30, 15, 100] } : DashOutput).summary_stats =
      [(caseVals (district_data exTable "East" 2020 2020)).sum,
       (monthlySums (district_data exTable "East" 2020 2020)).sum /
         (monthlySums (district_data exTable "East" 2020 2020)).length,
       if 2 ≤ (monthlySums (district_data exTable "East" 2020 2020)).length then
         ((monthlySums (district_data exTable "East" 2020 2020)).getLastD 0 -
          (monthlySums (district_data exTable "East" 2020 2020)).headD 0) /
           (monthlySums (district_data exTable "East" 2020 2020)).headD 0 * 100
       else 0] :=
  summary_stats_formula exTable "East" 2020 2020 _ update_dashboard_body_exTable

/-- Witness for C6: on the example table Alpha has two monthly buckets with a
non-zero second-to-last value, and the marker growth is the percent-change
formula. -/
theorem marker_growth_guard_witness :
    1 < (monthlySums (facilityFiltered (district_data exTable "East" 2020 2020) "Alpha")).length ∧
    (⟨"Alpha", -2, 30, 100⟩ : Marker).mom_growth =
      ((monthlySums (facilityFiltered (district_data exTable "East" 2020 2020) "Alpha")).getLastD 0 -
       (monthlySums (facilityFiltered (district_data exTable "East" 2020 2020) "Alpha")).dropLast.getLastD 0) /
      (monthlySums (facilityFiltered (district_data exTable "East" 2020 2020) "Alpha")).dropLast.getLastD 0 * 100 := by
  have hseries : monthlySums (facilityFiltered (district_data exTable "East" 2020 2020) "Alpha") = [10, 20] := by
    rw [district_data_exTable, facilityFiltered_exTable, monthlySums_exTable]
  have hm : (⟨"Alpha", -2, 30, 100⟩ : Marker) ∈ (update_dashboard exTable "East" 2020 2020).markers := by
    rw [update_dashboard_exTable]
    exact List.mem_singleton_self _
  refine ⟨by rw [hseries]; norm_num, ?_⟩
  exact (marker_growth_guard exTable "East" 2020 2020 ⟨"Alpha", -2, 30, 100⟩ hm).2.2
    (by rw [hseries]; norm_num) (by rw [hseries]; norm_num)

/-- Witness for C10: on the example table the bar-chart annotation and the map
marker of Alpha both show a growth of 100%. -/
theorem marker_chart_growth_agree_witness :
    (⟨"Alpha", -2, 30, 100⟩ : Marker).mom_growth = (100 : ℚ) := by
  have ha : (("Alpha", (100 : ℚ))) ∈ (update_dashboard exTable "East" 2020 2020).bar_annotations := by
    rw [update_dashboard_exTable]
    exact List.mem_singleton_self _
  have hm : (⟨"Alpha", -2, 30, 100⟩ : Marker) ∈ (update_dashboard exTable "East" 2020 2020).markers := by
    rw [update_dashboard_exTable]
    exact List.mem_singleton_self _
  exact marker_chart_growth_agree exTable "East" 2020 2020 "Alpha" 100 _ ha hm rfl

/-- Witness for the amended C4 theorem: instantiating the equivalence at the
concrete one-row inputs whose keys both normalize to the empty string. -/
theorem merge_inner_empty_key_iff_witness :
    ∃ r ∈ merge_inner [adminNoName] [caseBlankName], r.Cleaned_Facility = "" :=
  (merge_inner_empty_key_iff [adminNoName] [caseBlankName]).mpr
    ⟨⟨adminNoName, List.mem_singleton_self _, by decide⟩,
     ⟨caseBlankName, List.mem_singleton_self _, by decide⟩⟩
